import Mathlib

/-!
Verification of the backend process supervisor of
`src/frontend/src-tauri/src/commands.rs` (the Tauri shell of the
illustrated-primer repository).

The Rust commands `start_backend`, `stop_backend` and `check_backend_status`
are embedded shallowly as pure functions.  All interaction with the operating
system (environment variables, filesystem probes, process spawning, the
non-blocking `try_wait` exit poll, and `kill`) is abstracted into an `OS`
structure whose fields record the outcome the OS would give for each call of
the operation during one command invocation.  The shared
`Arc<Mutex<Option<Child>>>` handle slot becomes an explicit `Option Child`
value threaded in and out of each command.  Paths (`PathBuf`) are modelled as
their lists of joined components.  The embedding follows the `cfg!(windows)`
build, which is the only platform branch that does not fail immediately
("Non-Windows platforms not yet supported") and the one the specification's
path claims describe.
-/

namespace Primer

/-- A filesystem path, as the list of components joined by `PathBuf::join`.
`PathBuf::default()` (the empty path) is `[]`. -/
abbrev Path := List String

/-- An abstract identifier for a spawned OS child process
(`std::process::Child`). -/
abbrev Child := Nat

/-- Mirror of the Rust `BackendStatus { running: bool, port: u16 }`. -/
structure BackendStatus where
  running : Bool
  port : Nat
deriving DecidableEq, Repr

/-- Outcome of one non-blocking `Child::try_wait()` call:
`Ok(Some(status))`, `Ok(None)`, or `Err(e)`. -/
inductive TryWaitResult where
  | exited (status : Int)
  | stillRunning
  | pollFailed (msg : String)
deriving DecidableEq, Repr

/-- The operating-system environment of one command invocation: each field
records what the OS answers for the corresponding call the Rust code makes. -/
structure OS where
  /-- `std::env::current_exe().ok().and_then(|p| p.parent())`. -/
  exeDir : Option Path
  /-- `Path::exists` for each probed path. -/
  pathExists : Path → Bool
  /-- `std::env::var("APPDATA")`, `none` when unset (or not Unicode). -/
  appdata : Option String
  /-- `std::env::var("USERPROFILE")`, `none` when unset (or not Unicode). -/
  userprofile : Option String
  /-- `std::fs::create_dir_all(&data_dir)`: `none` on success, `some e` on
  failure with OS error message `e`. -/
  createDirErr : Option String
  /-- `Command::spawn()`: the child created, or the OS error message. -/
  spawn : Except String Child
  /-- `Child::try_wait()` for the given child at the moment it is polled. -/
  tryWait : Child → TryWaitResult
  /-- `Child::kill()`: `none` on success, `some e` on an OS error `e`. -/
  kill : Child → Option String

/-- Executable resolution inside `start_backend` (commands.rs lines 44-64,
Windows branch): candidate A is `<exe_dir>/resources/backend.exe`, used when
it exists; otherwise candidate B `<exe_dir>/backend.exe` is chosen without
being probed here. -/
def resolve_backend_exe (os : OS) : Except String Path :=
  match os.exeDir with
  | none => .error "Could not determine executable directory"
  | some exeDir =>
    let resourcePath := exeDir ++ ["resources", "backend.exe"]
    if os.pathExists resourcePath then
      .ok resourcePath
    else
      .ok (exeDir ++ ["backend.exe"])

/-- Data-directory resolution inside `start_backend` (commands.rs lines
74-95, Windows branch): `APPDATA`, else `USERPROFILE`, else
`PathBuf::default()`, joined with `"AI Tutor"` and `"data"`.  Total: it never
produces an error. -/
def resolve_data_dir (os : OS) : Path :=
  let app_data : Path :=
    match os.appdata with
    | some v => [v]
    | none =>
      match os.userprofile with
      | some v => [v]
      | none => []
  app_data ++ ["AI Tutor", "data"]

/-- Rendering of a path used inside error messages (stands for the Rust
`{:?}` formatting of a `PathBuf`). -/
def pathString (p : Path) : String :=
  String.intercalate "\\" p

/-- The "not found" error message of commands.rs lines 67-70. -/
def notFoundMessage (p : Path) : String :=
  "Backend executable not found at: " ++ pathString p ++
    ". Make sure backend.exe is in the resources directory."

/-- Result of one `start_backend` invocation: the `Result` returned to the
caller, the handle slot as the call leaves it, and how many child processes
the call created (0 or 1), used to state the no-double-spawn property. -/
structure StartOutcome where
  result : Except String BackendStatus
  slot : Option Child
  spawned : Nat
deriving Repr

/-- Shallow embedding of `start_backend` (commands.rs lines 26-194).
The slot is checked first (short-circuit), then the executable is resolved
and probed, the data directory created, the child spawned, the slot
populated, and after the 2-second grace sleep the child is polled with
`try_wait`; a poll whose `Result` is an `Err` is silently ignored by the
`if let Ok(Some(status))` pattern. -/
def start_backend (os : OS) (slot : Option Child) : StartOutcome :=
  match slot with
  | some c => ⟨.ok ⟨true, 8000⟩, some c, 0⟩
  | none =>
    match resolve_backend_exe os with
    | .error e => ⟨.error e, none, 0⟩
    | .ok backendExe =>
      if os.pathExists backendExe then
        match os.createDirErr with
        | some e => ⟨.error ("Failed to create data dir: " ++ e), none, 0⟩
        | none =>
          match os.spawn with
          | .error e => ⟨.error ("Failed to start backend: " ++ e), none, 0⟩
          | .ok child =>
            -- stdout/stderr pumps are detached side-effecting tasks; the
            -- slot is populated, then the grace-period poll runs.
            match os.tryWait child with
            | .exited status =>
              ⟨.error ("Backend process exited immediately with status: " ++
                  toString status), some child, 1⟩
            | .stillRunning => ⟨.ok ⟨true, 8000⟩, some child, 1⟩
            | .pollFailed _ => ⟨.ok ⟨true, 8000⟩, some child, 1⟩
      else
        ⟨.error (notFoundMessage backendExe), none, 0⟩

/-- Shallow embedding of `stop_backend` (commands.rs lines 198-204):
`process.take()` empties the slot, then the taken child (if any) is killed. -/
def stop_backend (os : OS) (slot : Option Child) :
    Except String Unit × Option Child :=
  match slot with
  | none => (.ok (), none)
  | some child =>
    match os.kill child with
    | none => (.ok (), none)
    | some e => (.error ("Failed to stop backend: " ++ e), none)

/-- Shallow embedding of `check_backend_status` (commands.rs lines 208-238):
a non-blocking `try_wait` poll of the held child, never modifying the slot. -/
def check_backend_status (os : OS) (slot : Option Child) :
    Except String BackendStatus × Option Child :=
  match slot with
  | none => (.ok ⟨false, 8000⟩, none)
  | some child =>
    match os.tryWait child with
    | .exited _ => (.ok ⟨false, 8000⟩, some child)
    | .stillRunning => (.ok ⟨true, 8000⟩, some child)
    | .pollFailed e =>
      (.error ("Error checking backend status: " ++ e), some child)

/-- Log severities the classifier can assign. -/
inductive Severity where
  | info
  | warning
  | severe
deriving DecidableEq, Repr

/-- `haystack.contains(needle)` on character lists, as in Rust
`str::contains` with a string pattern. -/
def charListContains (pat : List Char) : List Char → Bool
  | [] => pat.isEmpty
  | c :: t => pat.isPrefixOf (c :: t) || charListContains pat t

/-- Rust `str::contains` for string arguments. -/
def strContainsSubstr (s pat : String) : Bool :=
  charListContains pat.toList s.toList

/-- Rust `str::trim` on the character list of a line: leading and trailing
whitespace characters removed. -/
def trimChars (s : List Char) : List Char :=
  ((s.dropWhile Char.isWhitespace).reverse.dropWhile Char.isWhitespace).reverse

/-- Shallow embedding of the stderr classification in the stream pump of
`start_backend` (commands.rs lines 144-158): the line is trimmed; an empty
trimmed line yields no record (`none`); otherwise the uppercased line is
matched against "ERROR"/"CRITICAL"/"EXCEPTION" first, then
"WARNING"/"WARN", else Info. -/
def classify_stderr_line (line : String) : Option Severity :=
  let trimmed := trimChars line.toList
  if trimmed.isEmpty then
    none
  else
    let upper := trimmed.map Char.toUpper
    if charListContains "ERROR".toList upper
        || charListContains "CRITICAL".toList upper
        || charListContains "EXCEPTION".toList upper then
      some .severe
    else if charListContains "WARNING".toList upper
        || charListContains "WARN".toList upper then
      some .warning
    else
      some .info

/-- Modelled from the spec: "case-insensitive substring match" (spec §4.2).
This is the specification-side predicate the classifier is compared with:
both the line and the pattern are uppercased before substring matching. -/
def containsCaseInsensitive (s pat : List Char) : Bool :=
  charListContains (pat.map Char.toUpper) (s.map Char.toUpper)

/-! ### Concrete environments used as witnesses -/

/-- A healthy environment: executable directory known, every probed path
exists, spawn succeeds with child 7, the child is still running at every
poll, kills succeed. -/
def osHealthy : OS where
  exeDir := some ["C:", "app"]
  pathExists := fun _ => true
  appdata := some "C:\\Users\\u\\AppData\\Roaming"
  userprofile := none
  createDirErr := none
  spawn := .ok 7
  tryWait := fun _ => .stillRunning
  kill := fun _ => none

/-- As `osHealthy`, but the child has already exited with status 3 when the
grace-period poll runs. -/
def osExitEarly : OS :=
  { osHealthy with tryWait := fun _ => .exited 3 }

/-- As `osHealthy`, but `kill` fails with a permission error. -/
def osKillFails : OS :=
  { osHealthy with kill := fun _ => some "permission denied (os err 5)" }

/-- As `osHealthy`, but no probed path exists. -/
def osNotFound : OS :=
  { osHealthy with pathExists := fun _ => false }

/-- As `osHealthy`, but the OS refuses to create the process. -/
def osSpawnFails : OS :=
  { osHealthy with spawn := .error "program not found (os err 2)" }

/-- As `osHealthy`, but every `try_wait` poll itself fails with an OS err. -/
def osPollFails : OS :=
  { osHealthy with tryWait := fun _ => .pollFailed "no such process (os err 3)" }

/-- As `osHealthy`, but with neither APPDATA nor USERPROFILE set and a
failing `create_dir_all`. -/
def osBareEnv : OS :=
  { osHealthy with
      appdata := none
      userprofile := none
      createDirErr := some "access denied (os err 5)" }

/-! ### Helper lemmas -/

theorem charListContains_nil (s : List Char) : charListContains [] s = true := by
  cases s <;> simp [charListContains]

theorem charListContains_of_infix (pat a b : List Char) :
    charListContains pat (a ++ (pat ++ b)) = true := by
  induction a with
  | nil =>
    cases pat with
    | nil => exact charListContains_nil b
    | cons p ps =>
      show charListContains (p :: ps) (p :: (ps ++ b)) = true
      simp only [charListContains, Bool.or_eq_true, List.isPrefixOf_iff_prefix]
      exact Or.inl (List.prefix_append (p :: ps) b)
  | cons c t ih =>
    show charListContains pat (c :: (t ++ (pat ++ b))) = true
    simp only [charListContains, Bool.or_eq_true]
    exact Or.inr ih

theorem strContains_notFoundMessage (p : Path) :
    strContainsSubstr (notFoundMessage p) (pathString p) = true := by
  show charListContains (pathString p).data
    ("Backend executable not found at: ".data ++ ((pathString p).data ++
      ". Make sure backend.exe is in the resources directory.".data)) = true
  exact charListContains_of_infix _ _ _

/-- Any `start_backend` call on an empty slot either performs no spawn,
leaves the slot empty and returns an error, or performs exactly one spawn
and leaves the slot populated. -/
theorem start_backend_none_char (os : OS) :
    ((start_backend os none).spawned = 0 ∧ (start_backend os none).slot = none
      ∧ (start_backend os none).result.isOk = false)
    ∨ ((start_backend os none).spawned = 1
      ∧ ∃ c, (start_backend os none).slot = some c) := by
  cases hr : resolve_backend_exe os with
  | error e =>
    left
    simp [start_backend, hr, Except.isOk, Except.toBool]
  | ok exe =>
    cases hex : os.pathExists exe with
    | false =>
      left
      simp [start_backend, hr, hex, Except.isOk, Except.toBool]
    | true =>
      cases hd : os.createDirErr with
      | some e =>
        left
        simp [start_backend, hr, hex, hd, Except.isOk, Except.toBool]
      | none =>
        cases hs : os.spawn with
        | error e =>
          left
          simp [start_backend, hr, hex, hd, hs, Except.isOk, Except.toBool]
        | ok child =>
          right
          cases hw : os.tryWait child <;>
            simp [start_backend, hr, hex, hd, hs, hw]

/-! ### Claim theorems -/

/-- Claim C1: when the slot already holds a process reference, `start_backend`
returns success `{running := true, port := 8000}` without spawning, whatever
the held child's liveness (the `tryWait` field of `os` is unconstrained); any
pair of `start_backend` calls with no intervening `stop_backend` spawns at
most one child, and exactly one when the first call succeeds.  The slot being
an `Option Child` makes "at most one reference at any instant" structural. -/
theorem start_backend_idempotent_single_spawn :
    (∀ (os : OS) (c : Child),
      start_backend os (some c) = ⟨.ok ⟨true, 8000⟩, some c, 0⟩) ∧
    (∀ (os₁ os₂ : OS) (s₀ : Option Child),
      (start_backend os₁ s₀).spawned
        + (start_backend os₂ (start_backend os₁ s₀).slot).spawned ≤ 1) ∧
    (∀ (os₁ os₂ : OS),
      (start_backend os₁ none).result.isOk = true →
      (start_backend os₁ none).spawned
        + (start_backend os₂ (start_backend os₁ none).slot).spawned = 1) := by
  refine ⟨fun os c => rfl, ?_, ?_⟩
  · intro os₁ os₂ s₀
    cases s₀ with
    | some c =>
      show 0 + 0 ≤ 1
      decide
    | none =>
      rcases start_backend_none_char os₁ with ⟨h0, hslot, _⟩ | ⟨h1, c, hslot⟩
      · rw [h0, hslot]
        rcases start_backend_none_char os₂ with ⟨h0', _, _⟩ | ⟨h1', _⟩
        · simp [h0']
        · simp [h1']
      · rw [h1, hslot]
        show 1 + 0 ≤ 1
        decide
  · intro os₁ os₂ hok
    rcases start_backend_none_char os₁ with ⟨_, _, hfail⟩ | ⟨h1, c, hslot⟩
    · rw [hok] at hfail; cases hfail
    · rw [h1, hslot]
      show 1 + 0 = 1
      rfl

/-- Witness for C1: a concrete pair of environments in which the first
`start_backend` succeeds and the two calls together spawn exactly one child. -/
theorem start_backend_idempotent_single_spawn_witness :
    (start_backend osHealthy none).result.isOk = true ∧
    (start_backend osHealthy none).spawned
      + (start_backend osHealthy (start_backend osHealthy none).slot).spawned = 1 :=
  ⟨rfl, start_backend_idempotent_single_spawn.2.2 osHealthy osHealthy rfl⟩

/-- Claim C2: after a successful spawn (executable resolved and present, data
directory created, spawn succeeded), the grace-period `try_wait` poll decides
the outcome: if it reports the child already exited, `start_backend` returns
an error that carries the exit status and the slot stays populated with the
now-dead reference; if it reports the child still running, `start_backend`
returns `{running := true, port := 8000}`. -/
theorem start_backend_grace_poll (os : OS) (exe : Path) (child : Child)
    (status : Int)
    (hres : resolve_backend_exe os = .ok exe)
    (hex : os.pathExists exe = true)
    (hdir : os.createDirErr = none)
    (hspawn : os.spawn = .ok child) :
    (os.tryWait child = .exited status →
      start_backend os none =
        ⟨.error ("Backend process exited immediately with status: " ++
            toString status), some child, 1⟩) ∧
    (os.tryWait child = .stillRunning →
      start_backend os none = ⟨.ok ⟨true, 8000⟩, some child, 1⟩) := by
  constructor <;> intro hw <;> simp [start_backend, hres, hex, hdir, hspawn, hw]

/-- Witness for C2: in `osExitEarly` the child has exited with status 3 at
the poll, so the concrete call returns the premature-exit error and leaves
the dead reference in the slot; in `osHealthy` it returns success. -/
theorem start_backend_grace_poll_witness :
    start_backend osExitEarly none =
      ⟨.error ("Backend process exited immediately with status: " ++
          toString (3 : Int)), some 7, 1⟩ ∧
    start_backend osHealthy none = ⟨.ok ⟨true, 8000⟩, some 7, 1⟩ :=
  ⟨(start_backend_grace_poll osExitEarly
      (["C:", "app"] ++ ["resources", "backend.exe"]) 7 3 rfl rfl rfl rfl).1 rfl,
   (start_backend_grace_poll osHealthy
      (["C:", "app"] ++ ["resources", "backend.exe"]) 7 0 rfl rfl rfl rfl).2 rfl⟩

/-- Claim C3: `stop_backend` takes the slot's contents (the slot is empty
afterwards in every case, success or error); an empty slot is a successful
no-op; a held child is killed, and a failed kill surfaces the OS error while
the slot is already emptied. -/
theorem stop_backend_clears_slot (os : OS) :
    stop_backend os none = (.ok (), none) ∧
    (∀ c, os.kill c = none → stop_backend os (some c) = (.ok (), none)) ∧
    (∀ c e, os.kill c = some e →
      stop_backend os (some c) =
        (.error ("Failed to stop backend: " ++ e), none)) ∧
    (∀ s, (stop_backend os s).2 = none) := by
  refine ⟨rfl, ?_, ?_, ?_⟩
  · intro c h
    simp [stop_backend, h]
  · intro c e h
    simp [stop_backend, h]
  · intro s
    cases s with
    | none => rfl
    | some c => cases h : os.kill c <;> simp [stop_backend, h]

/-- Witness for C3: a concrete failed kill returns the OS error with the
slot emptied, and a concrete successful kill also empties the slot. -/
theorem stop_backend_clears_slot_witness :
    stop_backend osKillFails (some 5) =
      (.error ("Failed to stop backend: " ++ "permission denied (os err 5)"),
        none) ∧
    stop_backend osHealthy (some 5) = (.ok (), none) :=
  ⟨(stop_backend_clears_slot osKillFails).2.2.1 5
      "permission denied (os err 5)" rfl,
   (stop_backend_clears_slot osHealthy).2.1 5 rfl⟩

/-- Claim C4: `check_backend_status` has exactly four outcomes: empty slot
gives `{running := false}`; a held child still running gives
`{running := true}`; a held child reported exited gives `{running := false}`
without clearing the slot; a failed poll propagates the OS error. -/
theorem check_backend_status_outcomes (os : OS) :
    check_backend_status os none = (.ok ⟨false, 8000⟩, none) ∧
    (∀ c, os.tryWait c = .stillRunning →
      check_backend_status os (some c) = (.ok ⟨true, 8000⟩, some c)) ∧
    (∀ c s, os.tryWait c = .exited s →
      check_backend_status os (some c) = (.ok ⟨false, 8000⟩, some c)) ∧
    (∀ c e, os.tryWait c = .pollFailed e →
      check_backend_status os (some c) =
        (.error ("Error checking backend status: " ++ e), some c)) := by
  refine ⟨rfl, ?_, ?_, ?_⟩ <;> intro c
  · intro h
    simp [check_backend_status, h]
  · intro s h
    simp [check_backend_status, h]
  · intro e h
    simp [check_backend_status, h]

/-- Witness for C4: the four outcomes at concrete environments. -/
theorem check_backend_status_outcomes_witness :
    check_backend_status osHealthy none = (.ok ⟨false, 8000⟩, none) ∧
    check_backend_status osHealthy (some 7) = (.ok ⟨true, 8000⟩, some 7) ∧
    check_backend_status osExitEarly (some 7) = (.ok ⟨false, 8000⟩, some 7) ∧
    check_backend_status osPollFails (some 7) =
      (.error ("Error checking backend status: " ++
          "no such process (os err 3)"), some 7) :=
  ⟨(check_backend_status_outcomes osHealthy).1,
   (check_backend_status_outcomes osHealthy).2.1 7 rfl,
   (check_backend_status_outcomes osExitEarly).2.2.1 7 3 rfl,
   (check_backend_status_outcomes osPollFails).2.2.2 7
      "no such process (os err 3)" rfl⟩

/-- Claim C5: for every stderr line, the classifier first trims it; a line
whose trim is empty yields no record, and otherwise severity is decided by
case-insensitive substring matching with first match wins — ERROR, CRITICAL
or EXCEPTION give Error, else WARNING or WARN give Warning, else Info — as
witnessed by the equation against the specification-side predicate
`containsCaseInsensitive`, together with the spec's five concrete examples. -/
theorem classify_stderr_line_correct :
    (∀ line : String,
      classify_stderr_line line =
        (if (trimChars line.toList).isEmpty then none
         else if containsCaseInsensitive (trimChars line.toList) "ERROR".toList
             || containsCaseInsensitive (trimChars line.toList) "CRITICAL".toList
             || containsCaseInsensitive (trimChars line.toList) "EXCEPTION".toList
           then some .severe
         else if containsCaseInsensitive (trimChars line.toList) "WARNING".toList
             || containsCaseInsensitive (trimChars line.toList) "WARN".toList
           then some .warning
         else some .info)) ∧
    classify_stderr_line "Something ERROR happened" = some .severe ∧
    classify_stderr_line "low WARNING disk" = some .warning ∧
    classify_stderr_line "normal message" = some .info ∧
    classify_stderr_line "" = none ∧
    classify_stderr_line "error" = some .severe ∧
    classify_stderr_line "  \t " = none := by
  refine ⟨?_, by decide, by decide, by decide, by decide, by decide, by decide⟩
  intro line
  simp only [classify_stderr_line, containsCaseInsensitive]
  simp only [show ("ERROR".toList.map Char.toUpper) = "ERROR".toList from by decide,
      show ("CRITICAL".toList.map Char.toUpper) = "CRITICAL".toList from by decide,
      show ("EXCEPTION".toList.map Char.toUpper) = "EXCEPTION".toList from by decide,
      show ("WARNING".toList.map Char.toUpper) = "WARNING".toList from by decide,
      show ("WARN".toList.map Char.toUpper) = "WARN".toList from by decide]

/-- Claim C6: executable resolution tries `<exe_dir>/resources/backend.exe`
first and uses it exactly when it exists; `<exe_dir>/backend.exe` is used
only otherwise; when the chosen fallback does not exist either,
`start_backend` fails with the "not found" error, whose text contains the
rendered fallback path. -/
theorem resolve_backend_exe_order (os : OS) (d : Path)
    (hdir : os.exeDir = some d) :
    (os.pathExists (d ++ ["resources", "backend.exe"]) = true →
      resolve_backend_exe os = .ok (d ++ ["resources", "backend.exe"])) ∧
    (os.pathExists (d ++ ["resources", "backend.exe"]) = false →
      resolve_backend_exe os = .ok (d ++ ["backend.exe"])) ∧
    (os.pathExists (d ++ ["resources", "backend.exe"]) = false →
      os.pathExists (d ++ ["backend.exe"]) = false →
      (start_backend os none).result =
          .error (notFoundMessage (d ++ ["backend.exe"])) ∧
        strContainsSubstr (notFoundMessage (d ++ ["backend.exe"]))
          (pathString (d ++ ["backend.exe"])) = true) := by
  refine ⟨?_, ?_, ?_⟩
  · intro h
    simp [resolve_backend_exe, hdir, h]
  · intro h
    simp [resolve_backend_exe, hdir, h]
  · intro h1 h2
    have hres : resolve_backend_exe os = .ok (d ++ ["backend.exe"]) := by
      simp [resolve_backend_exe, hdir, h1]
    refine ⟨?_, strContains_notFoundMessage _⟩
    simp [start_backend, hres, h2]

/-- Witness for C6: with both candidate locations absent, the concrete
`start_backend` call fails with the "not found" error naming the fallback. -/
theorem resolve_backend_exe_order_witness :
    (start_backend osNotFound none).result =
      .error (notFoundMessage (["C:", "app"] ++ ["backend.exe"])) ∧
    resolve_backend_exe osHealthy =
      .ok (["C:", "app"] ++ ["resources", "backend.exe"]) :=
  ⟨((resolve_backend_exe_order osNotFound ["C:", "app"] rfl).2.2 rfl rfl).1,
   (resolve_backend_exe_order osHealthy ["C:", "app"] rfl).1 rfl⟩

/-- Claim C7: when the OS refuses to create the process, `start_backend`
returns an error carrying the underlying OS message and the slot stays
empty (and no child was created). -/
theorem start_backend_spawn_failure (os : OS) (exe : Path) (e : String)
    (hres : resolve_backend_exe os = .ok exe)
    (hex : os.pathExists exe = true)
    (hdir : os.createDirErr = none)
    (hspawn : os.spawn = .error e) :
    start_backend os none =
      ⟨.error ("Failed to start backend: " ++ e), none, 0⟩ := by
  simp [start_backend, hres, hex, hdir, hspawn]

/-- Witness for C7: a concrete refused spawn. -/
theorem start_backend_spawn_failure_witness :
    start_backend osSpawnFails none =
      ⟨.error ("Failed to start backend: " ++ "program not found (os err 2)"),
        none, 0⟩ :=
  start_backend_spawn_failure osSpawnFails
    (["C:", "app"] ++ ["resources", "backend.exe"])
    "program not found (os err 2)" rfl rfl rfl rfl

/-- Claim C8: a grace-period poll that itself fails with an OS error is
silently ignored by `start_backend`, which still returns
`{running := true, port := 8000}` — while `check_backend_status` surfaces
the same poll failure as an error to the caller. -/
theorem start_backend_ignores_poll_failure (os : OS) (exe : Path)
    (child : Child) (msg : String)
    (hres : resolve_backend_exe os = .ok exe)
    (hex : os.pathExists exe = true)
    (hdir : os.createDirErr = none)
    (hspawn : os.spawn = .ok child)
    (hpoll : os.tryWait child = .pollFailed msg) :
    (start_backend os none).result = .ok ⟨true, 8000⟩ ∧
    (check_backend_status os (some child)).1 =
      .error ("Error checking backend status: " ++ msg) := by
  constructor
  · simp [start_backend, hres, hex, hdir, hspawn, hpoll]
  · simp [check_backend_status, hpoll]

/-- Witness for C8: the concrete contrast at `osPollFails`. -/
theorem start_backend_ignores_poll_failure_witness :
    (start_backend osPollFails none).result = .ok ⟨true, 8000⟩ ∧
    (check_backend_status osPollFails (some 7)).1 =
      .error ("Error checking backend status: " ++
        "no such process (os err 3)") :=
  start_backend_ignores_poll_failure osPollFails
    (["C:", "app"] ++ ["resources", "backend.exe"]) 7
    "no such process (os err 3)" rfl rfl rfl rfl rfl

/-- Claim C9: `check_backend_status` never modifies the handle slot: for
every environment and every starting slot value (empty, live child, dead
child, or failing poll), the slot after the call equals the slot before. -/
theorem check_backend_status_nonmutating (os : OS) (slot : Option Child) :
    (check_backend_status os slot).2 = slot := by
  cases slot with
  | none => rfl
  | some c => cases h : os.tryWait c <;> simp [check_backend_status, h]

/-- Claim C10: Windows data-directory resolution is total over the
environment (it returns a `Path`, never an error): `APPDATA` when set, else
`USERPROFILE` when set, else the empty base yielding the relative
`AI Tutor/data`; and the only failure of this step of `start_backend` is the
subsequent directory-creation call, whose OS error is returned. -/
theorem resolve_data_dir_total (os : OS) :
    (∀ v, os.appdata = some v →
      resolve_data_dir os = [v, "AI Tutor", "data"]) ∧
    (∀ u, os.appdata = none → os.userprofile = some u →
      resolve_data_dir os = [u, "AI Tutor", "data"]) ∧
    (os.appdata = none → os.userprofile = none →
      resolve_data_dir os = ["AI Tutor", "data"]) ∧
    (∀ exe e, resolve_backend_exe os = .ok exe →
      os.pathExists exe = true → os.createDirErr = some e →
      start_backend os none =
        ⟨.error ("Failed to create data dir: " ++ e), none, 0⟩) := by
  refine ⟨?_, ?_, ?_, ?_⟩
  · intro v h
    simp [resolve_data_dir, h]
  · intro u h1 h2
    simp [resolve_data_dir, h1, h2]
  · intro h1 h2
    simp [resolve_data_dir, h1, h2]
  · intro exe e hres hex hd
    simp [start_backend, hres, hex, hd]

/-- Witness for C10: with neither APPDATA nor USERPROFILE set the data
directory is the relative `AI Tutor/data`, and the failing
`create_dir_all` is the error `start_backend` returns. -/
theorem resolve_data_dir_total_witness :
    resolve_data_dir osBareEnv = ["AI Tutor", "data"] ∧
    start_backend osBareEnv none =
      ⟨.error ("Failed to create data dir: " ++ "access denied (os err 5)"),
        none, 0⟩ :=
  ⟨(resolve_data_dir_total osBareEnv).2.2.1 rfl rfl,
   (resolve_data_dir_total osBareEnv).2.2.2
      (["C:", "app"] ++ ["resources", "backend.exe"])
      "access denied (os err 5)" rfl rfl rfl⟩

end Primer
